import Mathlib

/-!
Verification development for the interactive event-card component
(EventCard3D) and the viewport-triggered animation wrapper
(AnimatedSection) of the event-website front end.

The definitions below are shallow embeddings of the component code:
numeric quantities use rationals, the simulated clock counts whole
milliseconds, and the sources of nondeterminism of the original code
(random particle kinematics, pointer coordinates) are passed in as
explicit parameters.
-/

/-- A particle of the card's particle system: a monotonic id, a position
`(x, y)` and a velocity `(vx, vy)`, as produced by `createParticleBurst`
and the click-handler explosion. -/
structure Particle where
  id : Nat
  x : ℚ
  y : ℚ
  vx : ℚ
  vy : ℚ
deriving DecidableEq

/-- JavaScript `arr.slice(-n)`: the last `n` elements of the list (the
whole list when it has at most `n` elements). -/
def sliceLast (n : Nat) (l : List Particle) : List Particle :=
  l.drop (l.length - n)

/-- From `createParticleBurst`: the freshly generated particles are
appended to the previous list and only the last 20 entries are kept,
`[...prev, ...newParticles].slice(-20)`.  The three randomly generated
particles are passed in as `newParticles`. -/
def createParticleBurst (prev newParticles : List Particle) : List Particle :=
  sliceLast 20 (prev ++ newParticles)

/-- The per-particle update of `animateParticles`:
`x += vx`, `y += vy`, `vy += 0.2` (gravity); `vx` and `id` unchanged. -/
def integrate (p : Particle) : Particle :=
  { p with x := p.x + p.vx, y := p.y + p.vy, vy := p.vy + 1/5 }

/-- One `animateParticles` step: every particle is integrated, then the
list is filtered to the particles with
`particle.y < 600 && particle.x > -50 && particle.x < 450`. -/
def animateParticles (l : List Particle) : List Particle :=
  (l.map integrate).filter fun p =>
    decide (p.y < 600) && decide (p.x > -50) && decide (p.x < 450)

/-- The card's interaction state: the `isFlipped`, `isFlipping` and
`isFocused` booleans, the normalized pointer motion values `mouseX` and
`mouseY`, the live particle list, and a simulated clock: `now` is the
current time in milliseconds and `timers` the expiry times of the pending
`setTimeout(.., 800)` callbacks scheduled by `handleCardClick`. -/
structure CardState where
  isFlipped : Bool
  isFlipping : Bool
  isFocused : Bool
  mouseX : ℚ
  mouseY : ℚ
  particles : List Particle
  now : Nat
  timers : List Nat
deriving DecidableEq

/-- The state of a freshly mounted card: not flipped, not flipping, not
focused, pointer values at 0, no particles, clock at 0, no pending
timers. -/
def initialCardState : CardState :=
  ⟨false, false, false, 0, 0, [], 0, []⟩

/-- From `handleCardClick`: set `isFlipping`, toggle `isFlipped`, reset
`mouseX`/`mouseY` to 0, schedule a timeout 800 ms from now that will
clear `isFlipping`, and append the 15 explosion particles (their random
kinematics are passed in as `explosionParticles`). -/
def handleCardClick (s : CardState) (explosionParticles : List Particle) : CardState :=
  { s with
    isFlipping := true,
    isFlipped := !s.isFlipped,
    mouseX := 0,
    mouseY := 0,
    timers := s.timers ++ [s.now + 800],
    particles := s.particles ++ explosionParticles }

/-- One millisecond of simulated time: the clock advances by 1 and every
pending `setTimeout` callback whose expiry has been reached fires,
executing `setIsFlipping(false)`. -/
def tickStep (s : CardState) : CardState :=
  let now := s.now + 1
  let fired := s.timers.filter fun t => decide (t ≤ now)
  let remaining := s.timers.filter fun t => ! decide (t ≤ now)
  { s with
    now := now,
    timers := remaining,
    isFlipping := if fired = [] then s.isFlipping else false }

/-- An event on the simulated clock: a click on the card (carrying the
random kinematics of its 15 explosion particles) or the passage of one
millisecond. -/
inductive Event where
  | click (explosionParticles : List Particle)
  | tick
deriving DecidableEq

/-- Apply one event to the card state. -/
def stepEvent (s : CardState) : Event → CardState
  | Event.click e => handleCardClick s e
  | Event.tick => tickStep s

/-- Run a sequence of events from a card state. -/
def runEvents (s : CardState) : List Event → CardState
  | [] => s
  | e :: tr => runEvents (stepEvent s e) tr

/-- The number of milliseconds a sequence of events spans. -/
def countTicks : List Event → Nat
  | [] => 0
  | Event.tick :: tr => countTicks tr + 1
  | Event.click _ :: tr => countTicks tr

/-- The data handleMouseMove reads from the pointer event and the card's
bounding rectangle. -/
structure MouseEventData where
  clientX : ℚ
  clientY : ℚ
  rectLeft : ℚ
  rectTop : ℚ
  rectWidth : ℚ
  rectHeight : ℚ
deriving DecidableEq

/-- From `handleMouseMove`: return unchanged when the ref is missing or
the card is flipped; otherwise store the offsets from the box center
normalized by the half extents into `mouseX`/`mouseY`, and, while
hovered, trigger a particle burst with probability 5 percent
(`Math.random() > 0.95`; the sampled random number is `rand` and the
burst's random particles are `burstParticles`). -/
def handleMouseMove (s : CardState) (isHovered hasRef : Bool) (e : MouseEventData)
    (rand : ℚ) (burstParticles : List Particle) : CardState :=
  if !hasRef || s.isFlipped then s
  else
    let centerX := e.rectLeft + e.rectWidth / 2
    let centerY := e.rectTop + e.rectHeight / 2
    let mouseXPercent := (e.clientX - centerX) / (e.rectWidth / 2)
    let mouseYPercent := (e.clientY - centerY) / (e.rectHeight / 2)
    { s with
      mouseX := mouseXPercent,
      mouseY := mouseYPercent,
      particles :=
        if isHovered && decide (rand > 95/100) then
          createParticleBurst s.particles burstParticles
        else s.particles }

/-- Clamp a rational to the unit interval, the default clamping behaviour
of the animation library's `useTransform`. -/
def clamp01 (t : ℚ) : ℚ := max 0 (min 1 t)

/-- The animation library's `useTransform` on a two-point range: linear
interpolation of `[outLo, outHi]` over the input interval
`[inLo, inHi]`, with progress clamped to `[0, 1]` so that inputs outside
the interval map to the endpoint outputs. -/
def useTransform (inLo inHi outLo outHi v : ℚ) : ℚ :=
  outLo + clamp01 ((v - inLo) / (inHi - inLo)) * (outHi - outLo)

/-- `useTransform(springY, [-0.5, 0.5], [25, -25])`. -/
def rotateX (springY : ℚ) : ℚ := useTransform (-(1/2)) (1/2) 25 (-25) springY

/-- `useTransform(springX, [-0.5, 0.5], [-25, 25])`. -/
def rotateY (springX : ℚ) : ℚ := useTransform (-(1/2)) (1/2) (-25) 25 springX

/-- `useTransform(springY, [-0.5, 0.5], [-30, -60])`. -/
def levitateY (springY : ℚ) : ℚ := useTransform (-(1/2)) (1/2) (-30) (-60) springY

/-- `useTransform(springX, [-0.5, 0.5], [20, 80])`. -/
def levitateZ (springX : ℚ) : ℚ := useTransform (-(1/2)) (1/2) 20 80 springX

/-- `useTransform(springY, [-0.5, 0.5], [1.02, 1.15])`. -/
def depthScale (springY : ℚ) : ℚ := useTransform (-(1/2)) (1/2) (102/100) (115/100) springY

/-- The target values of the card's inner `motion.div` `animate` object:
`rotateX`, `y`, `z` and `scale`. -/
structure InnerAnimate where
  rotateX : ℚ
  y : ℚ
  z : ℚ
  scale : ℚ
deriving DecidableEq

/-- The inner `motion.div` `animate` object as a function of the flip,
hover and focus flags and the smoothed pointer values: the tilt
`rotateX` and lift `y` follow the pointer transforms while unflipped and
hovered or focused, while `z` and `scale` are the constants
`60`/`100` and `1.08`/`1.12` for hover/focus and neutral otherwise. -/
def appliedInner (flipped hovered focused : Bool) (_springX springY : ℚ) : InnerAnimate :=
  { rotateX := if !flipped && (hovered || focused) then rotateX springY else 0,
    y := if !flipped && (hovered || focused) then levitateY springY else 0,
    z := if !flipped && hovered then 60 else if !flipped && focused then 100 else 0,
    scale :=
      if !flipped && hovered then 108/100
      else if !flipped && focused then 112/100
      else 1 }

/-- The AnimatedSection state the intersection logic touches: the
`hasAnimated` latch and the number of times the visible-state transition
has been started (`onAnimationStart` plus `controls.start('visible')`). -/
structure ObserveState where
  hasAnimated : Bool
  startCount : Nat
deriving DecidableEq

/-- State at mount: latch down, no starts. -/
def initialObserveState : ObserveState := ⟨false, 0⟩

/-- The IntersectionObserver callback of AnimatedSection: iterate over
the delivered entries and, for each entry with
`entry.isIntersecting && !hasAnimated`, set the latch and start the
visible transition.  The `hasAnimated` value the callback closes over is
the one captured when the observer was created, so it is frozen for the
whole batch. -/
def observerCallback (s : ObserveState) (entries : List Bool) : ObserveState :=
  let hasAnimatedSnapshot := s.hasAnimated
  entries.foldl
    (fun acc isIntersecting =>
      if isIntersecting && !hasAnimatedSnapshot then
        { hasAnimated := true, startCount := acc.startCount + 1 }
      else acc)
    s

/-- Run a sequence of observer notifications.  The observer watches a
single element, so each browser notification delivers at most one entry
for it, and between notifications (separate event-loop tasks at
rendering frames) the state update and effect re-subscription settle. -/
def runNotifications (s : ObserveState) : List (List Bool) → ObserveState
  | [] => s
  | batch :: rest => runNotifications (observerCallback s batch) rest

/-- Outcome of a click on the Register button: either open a URL
(`window.open(url, target, features)` followed by nulling the opener) or
show a user-facing notice with no navigation. -/
inductive RegisterOutcome where
  | navigate (url target features : String) (openerSetNull : Bool)
  | notice (message : String)
deriving DecidableEq

/-- The Register button's routing: the four known titles map to their
fixed URLs, opened via `window.open(url, "_blank", "noopener,noreferrer")`
with `newWindow.opener = null`; any other title alerts that registration
is coming soon and returns without navigating. -/
def registerClick (title : String) : RegisterOutcome :=
  if title = "Brand-o-Vation" then
    RegisterOutcome.navigate ("https://brand-o-vation.vercel.app/") ("_blank")
      ("noopener,noreferrer") true
  else if title = "Ventura" then
    RegisterOutcome.navigate ("https://ventura-zeta.vercel.app/") ("_blank")
      ("noopener,noreferrer") true
  else if title = "The Paradox Protocol" then
    RegisterOutcome.navigate ("https://paradox-protocol-theta.vercel.app/") ("_blank")
      ("noopener,noreferrer") true
  else if title = "Capitalyze" then
    RegisterOutcome.navigate ("https://capitalyze.vercel.app/") ("_blank")
      ("noopener,noreferrer") true
  else
    RegisterOutcome.notice ("Registration for " ++ title ++ " coming soon!")

/-- The Register button's click handler: it calls `e.stopPropagation()`
unconditionally before routing, so it reports the outcome together with
the propagation-stopped flag. -/
def registerButtonHandler (title : String) : RegisterOutcome × Bool :=
  (registerClick title, true)

/-- Dispatch of a click on the Register button through the DOM: the
button handler runs first; the card-level `handleCardClick` runs
afterwards only if propagation was not stopped. -/
def dispatchRegisterClick (s : CardState) (title : String)
    (explosionParticles : List Particle) : CardState × RegisterOutcome :=
  let handled := registerButtonHandler title
  (if handled.snd then s else handleCardClick s explosionParticles, handled.fst)

/-- The presentation variant an AnimatedSection frame shows. -/
inductive SectionVariantTag where
  | hidden
  | visible
deriving DecidableEq

/-- One rendered AnimatedSection frame: which variant the wrapper is in
and whether an intersection observer is attached. -/
structure SectionFrame where
  variant : SectionVariantTag
  observerAttached : Bool
deriving DecidableEq

/-- The first rendered frame after mount: the `motion.div` mounts with
`initial="hidden"` and the mount effect has not yet run, so no observer
is attached. -/
def sectionFirstFrame : SectionFrame :=
  ⟨SectionVariantTag.hidden, false⟩

/-- The AnimatedSection mount effect: when the ref is missing or reduced
motion is preferred, start the visible state and return without creating
an observer; otherwise attach the intersection observer. -/
def sectionMountEffect (prefersReducedMotion hasRef : Bool) (f : SectionFrame) : SectionFrame :=
  if !hasRef || prefersReducedMotion then { f with variant := SectionVariantTag.visible }
  else { f with observerAttached := true }

/-- The frames rendered over a mount: the initial render followed by the
state after the mount effect has run. -/
def sectionMountFrames (prefersReducedMotion hasRef : Bool) : List SectionFrame :=
  [sectionFirstFrame, sectionMountEffect prefersReducedMotion hasRef sectionFirstFrame]

/-- The animation profile selector prop of AnimatedSection. -/
inductive AnimationType where
  | slide
  | rotate
  | scale
  | morph
  | explode
deriving DecidableEq

/-- The intensity prop of AnimatedSection. -/
inductive Intensity where
  | light
  | medium
  | heavy
deriving DecidableEq

/-- The coarse device-capability classification. -/
inductive DevPerf where
  | low
  | medium
  | high
deriving DecidableEq

/-- The props of AnimatedSection that feed its animation configuration. -/
structure SectionProps where
  animationType : AnimationType
  duration : ℚ
  intensity : Intensity
  enableParticles : Bool
  enable3D : Bool
deriving DecidableEq

/-- The environment signals `getDevicePerformance` and the reduced-motion
hook read: window presence, the reduced-motion media query,
`navigator.hardwareConcurrency`, `navigator.deviceMemory` and the mobile
user-agent test. -/
structure DeviceSignals where
  hasWindow : Bool
  prefersReducedMotion : Bool
  hardwareConcurrency : Option Nat
  deviceMemory : Option ℚ
  isMobileUserAgent : Bool
deriving DecidableEq

/-- `getDevicePerformance` as written in both component versions:
medium without a window; low under reduced motion; then low for small
memory or a mobile device with few cores; high for 8 or more cores with
no or large memory; otherwise medium.  `hardwareConcurrency || 4`
defaults a missing or zero core count to 4, and `memory && memory < 4`
requires the memory value to be truthy. -/
def getDevicePerformance (d : DeviceSignals) : DevPerf :=
  if !d.hasWindow then DevPerf.medium
  else if d.prefersReducedMotion then DevPerf.low
  else
    let cores : Nat :=
      match d.hardwareConcurrency with
      | some n => if n = 0 then 4 else n
      | none => 4
    let memTruthy : Bool :=
      match d.deviceMemory with
      | some m => decide (m ≠ 0)
      | none => false
    let memLt4 : Bool :=
      match d.deviceMemory with
      | some m => decide (m < 4)
      | none => false
    let memGe8 : Bool :=
      match d.deviceMemory with
      | some m => decide (8 ≤ m)
      | none => false
    if memTruthy && memLt4 then DevPerf.low
    else if d.isMobileUserAgent && decide (cores < 4) then DevPerf.low
    else if decide (8 ≤ cores) && (!memTruthy || memGe8) then DevPerf.high
    else DevPerf.medium

/-- A variant's style target.  A field is `none` when the source object
omits the property entirely (the conditional spreads). -/
structure VStyle where
  opacity : Option ℚ := none
  y : Option ℚ := none
  scale : Option ℚ := none
  rotate : Option ℚ := none
  rotateX : Option ℚ := none
  rotateY : Option ℚ := none
  rotateZ : Option ℚ := none
  skewX : Option ℚ := none
  skewY : Option ℚ := none
  z : Option ℚ := none
deriving DecidableEq

/-- The transition descriptor attached to a visible variant. -/
structure TransitionSpec where
  duration : ℚ
  ease : Option (List ℚ) := none
  staggerChildren : Option ℚ := none
  delayChildren : Option ℚ := none
deriving DecidableEq

/-- A (hidden, visible) variant pair with the visible transition. -/
structure VariantPair where
  hidden : VStyle
  visible : VStyle
  visibleTransition : TransitionSpec
deriving DecidableEq

/-- The reduced-motion variant pair both versions return: a plain opacity
fade of the given duration. -/
def reducedMotionVariants (fadeDuration : ℚ) : VariantPair :=
  { hidden := { opacity := some 0 },
    visible := { opacity := some 1 },
    visibleTransition := { duration := fadeDuration } }

/-- The shipped AnimatedSection's `baseVariants` table, indexed by the
animation type and built from the adjusted duration
(`optimizedSettings.duration = duration * 0.5`). -/
def shippedBaseVariants (t : AnimationType) (adjustedDuration : ℚ) : VariantPair :=
  match t with
  | AnimationType.slide =>
    { hidden := { opacity := some 0, y := some 15 },
      visible := { opacity := some 1, y := some 0 },
      visibleTransition :=
        { duration := adjustedDuration * (8/10),
          ease := some [25/100, 46/100, 45/100, 94/100],
          staggerChildren := some (5/100),
          delayChildren := some (5/100) } }
  | AnimationType.rotate =>
    { hidden := { opacity := some 0, scale := some (95/100) },
      visible := { opacity := some 1, scale := some 1 },
      visibleTransition :=
        { duration := adjustedDuration * (5/10),
          ease := some [25/100, 46/100, 45/100, 94/100],
          staggerChildren := some (3/100) } }
  | AnimationType.scale =>
    { hidden := { opacity := some 0, scale := some (85/100) },
      visible := { opacity := some 1, scale := some 1 },
      visibleTransition :=
        { duration := adjustedDuration * (7/10),
          ease := some [175/1000, 885/1000, 32/100, 1275/1000],
          staggerChildren := some (5/100) } }
  | AnimationType.morph =>
    { hidden := { opacity := some 0, scale := some (9/10) },
      visible := { opacity := some 1, scale := some 1 },
      visibleTransition :=
        { duration := adjustedDuration * (9/10),
          ease := some [23/100, 1, 32/100, 1],
          staggerChildren := some (6/100) } }
  | AnimationType.explode =>
    { hidden := { opacity := some 0, scale := some (12/10) },
      visible := { opacity := some 1, scale := some 1 },
      visibleTransition :=
        { duration := adjustedDuration * (6/10),
          ease := some [19/100, 1, 22/100, 1],
          staggerChildren := some (3/100) } }

/-- The shipped `getAnimationVariants`: the reduced-motion fade
(duration 0.2) or the simplified base variants for the animation type at
half the base duration.  It is given the full props and device signals to
state which of them it actually depends on. -/
def shippedGetAnimationVariants (p : SectionProps) (d : DeviceSignals) : VariantPair :=
  if d.prefersReducedMotion then reducedMotionVariants (2/10)
  else shippedBaseVariants p.animationType (p.duration * (1/2))

/-- The elements an AnimatedSection render can contain, as far as the
particle-trail question is concerned. -/
inductive RenderElem where
  | particleTrail
  | sectionContent
deriving DecidableEq

/-- The shipped render tree: the children wrapper only; the particle
trail block is absent (the render comments it out as disabled for
performance). -/
def shippedRenderElems (_p : SectionProps) (_d : DeviceSignals) : List RenderElem :=
  [RenderElem.sectionContent]

/-- The alternative version's intensity multiplier: 0.5 / 1 / 2, with
heavy reduced to 1 on a low-end device. -/
def intensityMultiplier (intensity : Intensity) (dp : DevPerf) : ℚ :=
  match intensity with
  | Intensity.light => 1/2
  | Intensity.medium => 1
  | Intensity.heavy => if dp = DevPerf.low then 1 else 2

/-- The alternative version's `optimizedSettings`. -/
structure OptSettings where
  enable3D : Bool
  enableParticles : Bool
  duration : ℚ
  useGPU : Bool
deriving DecidableEq

/-- The alternative version's `optimizedSettings`: 3D only off low-end,
particles only on high-end, duration scaled by 0.6 on low-end. -/
def altOptimizedSettings (p : SectionProps) (dp : DevPerf) : OptSettings :=
  { enable3D := p.enable3D && decide (dp ≠ DevPerf.low),
    enableParticles := p.enableParticles && decide (dp = DevPerf.high),
    duration := if dp = DevPerf.low then p.duration * (6/10) else p.duration,
    useGPU := decide (dp ≠ DevPerf.low) }

/-- The alternative (capability-branching) `getAnimationVariants` of the
unnamed AnimatedSection variant: its output depends on the intensity
multiplier, the 3D setting and the device-performance class. -/
def altGetAnimationVariants (p : SectionProps) (d : DeviceSignals) : VariantPair :=
  let dp := getDevicePerformance d
  if d.prefersReducedMotion then reducedMotionVariants (3/10)
  else
    let im := intensityMultiplier p.intensity dp
    let opt := altOptimizedSettings p dp
    let use3D := opt.enable3D
    let adj := opt.duration
    let low := decide (dp = DevPerf.low)
    match p.animationType with
    | AnimationType.slide =>
      { hidden := { opacity := some 0, y := some (if low then 20 else 30) },
        visible := { opacity := some 1, y := some 0 },
        visibleTransition :=
          { duration := adj * (8/10),
            ease := some [25/100, 46/100, 45/100, 94/100],
            staggerChildren := some (if low then 8/100 else 15/100),
            delayChildren := some (1/10) } }
    | AnimationType.rotate =>
      { hidden :=
          { opacity := some 0,
            rotateX := some (if use3D then -10 * im else 0),
            rotateY := some (if use3D then 5 * im else 0),
            scale := some (95/100),
            z := if use3D then some (-20) else none },
        visible :=
          { opacity := some 1, rotateX := some 0, rotateY := some 0, scale := some 1,
            z := if use3D then some 0 else none },
        visibleTransition :=
          { duration := adj * (5/10),
            ease := some [25/100, 46/100, 45/100, 94/100],
            staggerChildren := some (5/100) } }
    | AnimationType.scale =>
      { hidden :=
          { opacity := some 0,
            scale := some (if low then 8/10 else (1/10) * im),
            rotateZ := some (if use3D then (if low then 45 else 180) else 0),
            z := if use3D then some (if low then -50 else -300) else none },
        visible :=
          { opacity := some 1, scale := some 1, rotateZ := some 0,
            z := if use3D then some 0 else none },
        visibleTransition :=
          { duration := adj * (13/10),
            ease := some [175/1000, 885/1000, 32/100, 1275/1000],
            staggerChildren := some (8/100) } }
    | AnimationType.morph =>
      { hidden :=
          { opacity := some 0,
            scale := some (3/10),
            rotateY := some (if use3D then (if low then 90 else 270) * im else 0),
            rotateX := some (if use3D && !low then 45 else 0),
            skewX := some (if low then 10 else 25),
            skewY := if use3D && !low then some 15 else none,
            z := if use3D then some (if low then -50 else -150) else none },
        visible :=
          { opacity := some 1, scale := some 1, rotateY := some 0, rotateX := some 0,
            skewX := some 0, skewY := some 0,
            z := if use3D then some 0 else none },
        visibleTransition :=
          { duration := adj * (18/10),
            ease := some [23/100, 1, 32/100, 1],
            staggerChildren := some (12/100) } }
    | AnimationType.explode =>
      { hidden :=
          { opacity := some 0,
            scale := some (if low then 15/10 else 3 * im),
            rotate := some (if use3D then (if low then 180 else 720) else 0),
            rotateX := if use3D && !low then some 180 else none,
            rotateY := if use3D && !low then some 180 else none,
            z := if use3D then some (if low then 100 else 500) else none },
        visible :=
          { opacity := some 1, scale := some 1, rotate := some 0,
            rotateX := some 0, rotateY := some 0,
            z := if use3D then some 0 else none },
        visibleTransition :=
          { duration := adj * (11/10),
            ease := some [19/100, 1, 22/100, 1],
            staggerChildren := some (5/100) } }

/-- The alternative version's render tree: the particle-trail block is
present exactly when `optimizedSettings.enableParticles` holds. -/
def altRenderElems (p : SectionProps) (d : DeviceSignals) : List RenderElem :=
  (if (altOptimizedSettings p (getDevicePerformance d)).enableParticles then
    [RenderElem.particleTrail]
  else []) ++ [RenderElem.sectionContent]

/-! ## Theorems -/

/-- C1 (amended): ambient and hover bursts via `createParticleBurst` keep
the particle list at 20 or fewer members and, when the cap binds, drop
the oldest particles first (the retained list is a suffix of the old
list followed by the new burst); the 15-particle click explosion,
however, is appended by `handleCardClick` without the cap, so the list
is simply the old list followed by the explosion and may exceed 20. -/
theorem particle_cap_amended (prev newParticles explosionParticles : List Particle)
    (s : CardState) :
    (createParticleBurst prev newParticles).length ≤ 20 ∧
    (∃ dropped, dropped ++ createParticleBurst prev newParticles = prev ++ newParticles) ∧
    (handleCardClick s explosionParticles).particles = s.particles ++ explosionParticles := by
  refine ⟨?_, ⟨(prev ++ newParticles).take ((prev ++ newParticles).length - 20), ?_⟩, rfl⟩
  · simp only [createParticleBurst, sliceLast, List.length_drop]
    omega
  · simp only [createParticleBurst, sliceLast, List.take_append_drop]

/-- C1 (counterexample): two click explosions starting from the empty
particle list leave 30 concurrent particles on the card, refuting the
claimed 20-particle cap over sequences that include the click handler's
explosion. -/
theorem particle_cap_cex :
    ((handleCardClick
        (handleCardClick initialCardState
          ((List.range 15).map fun i => ⟨i, 200, 300, 0, -6⟩))
        ((List.range 15).map fun i => ⟨15 + i, 200, 300, 0, -6⟩)).particles).length = 30 ∧
    ¬ (30 ≤ 20) := by
  constructor
  · simp [handleCardClick, initialCardState]
  · decide

/-- C2: one `animateParticles` step maps each particle
`{x, y, vx, vy}` to `{x + vx, y + vy, vx, vy + 0.2}` and keeps exactly
the integrated particles satisfying `y < 600` and `-50 < x < 450`, so
after a step every surviving particle satisfies those bounds. -/
theorem particle_step_bounds (l : List Particle) (p : Particle) :
    (∀ q : Particle,
      integrate q = { q with x := q.x + q.vx, y := q.y + q.vy, vy := q.vy + 1/5 }) ∧
    (p ∈ animateParticles l → p.y < 600 ∧ -50 < p.x ∧ p.x < 450) ∧
    (p ∈ animateParticles l ↔
      ∃ q, q ∈ l ∧ integrate q = p ∧ (p.y < 600 ∧ -50 < p.x ∧ p.x < 450)) := by
  refine ⟨fun q => rfl, ?_, ?_, ?_⟩
  · intro hp
    have hpred := List.of_mem_filter hp
    simpa [Bool.and_eq_true, decide_eq_true_eq, and_assoc] using hpred
  · intro hp
    rcases List.mem_filter.mp hp with ⟨hm, hpred⟩
    rcases List.mem_map.mp hm with ⟨q, hq, rfl⟩
    refine ⟨q, hq, rfl, ?_⟩
    simpa [Bool.and_eq_true, decide_eq_true_eq, and_assoc] using hpred
  · rintro ⟨q, hq, rfl, hb⟩
    refine List.mem_filter.mpr ⟨List.mem_map.mpr ⟨q, hq, rfl⟩, ?_⟩
    simp only [Bool.and_eq_true, decide_eq_true_eq]
    exact ⟨⟨hb.1, hb.2.1⟩, hb.2.2⟩

/-- Witness for C2 at a concrete particle: integrating
`⟨0, 0, 0, 1, 1⟩` yields `⟨0, 1, 1, 1, 6/5⟩`, which survives the filter
and satisfies the bounds. -/
theorem particle_step_bounds_witness :
    (⟨0, 1, 1, 1, 6/5⟩ : Particle).y < 600 ∧
    -50 < (⟨0, 1, 1, 1, 6/5⟩ : Particle).x ∧ (⟨0, 1, 1, 1, 6/5⟩ : Particle).x < 450 :=
  (particle_step_bounds [⟨0, 0, 0, 1, 1⟩] ⟨0, 1, 1, 1, 6/5⟩).2.1
    (by simp [animateParticles, integrate]; norm_num)

/-- Helper: cons equations for `countTicks`. -/
lemma countTicks_click (e : List Particle) (tr : List Event) :
    countTicks (Event.click e :: tr) = countTicks tr := rfl

/-- Helper: a tick adds one to the tick count. -/
lemma countTicks_tick (tr : List Event) :
    countTicks (Event.tick :: tr) = countTicks tr + 1 := rfl

/-- Helper: `countTicks` adds over concatenation. -/
lemma countTicks_append (a b : List Event) :
    countTicks (a ++ b) = countTicks a + countTicks b := by
  induction a with
  | nil => simp [countTicks]
  | cons e tr ih =>
    cases e with
    | click ex => simpa [countTicks] using ih
    | tick => simp [countTicks, ih]; omega

/-- Helper: running a concatenation runs the pieces in order. -/
lemma runEvents_append (s : CardState) (a b : List Event) :
    runEvents s (a ++ b) = runEvents (runEvents s a) b := by
  induction a generalizing s with
  | nil => rfl
  | cons e tr ih => simp [runEvents, ih]

/-- Helper: a pending timer strictly beyond the span of an event
sequence survives it, and the clock advances by the number of ticks. -/
lemma timer_alive (tr : List Event) : ∀ (s : CardState) (x : Nat),
    x ∈ s.timers → s.now + countTicks tr < x →
    x ∈ (runEvents s tr).timers ∧ (runEvents s tr).now = s.now + countTicks tr := by
  induction tr with
  | nil =>
    intro s x hx _
    exact ⟨hx, by simp [runEvents, countTicks]⟩
  | cons e tr ih =>
    intro s x hx h
    cases e with
    | click ex =>
      have h1 : x ∈ (handleCardClick s ex).timers := by
        simp [handleCardClick]
        exact Or.inl hx
      have h2 : (handleCardClick s ex).now + countTicks tr < x := by
        simp only [handleCardClick]
        simpa [countTicks] using h
      obtain ⟨ha, hb⟩ := ih (handleCardClick s ex) x h1 h2
      refine ⟨ha, ?_⟩
      show (runEvents (handleCardClick s ex) tr).now = s.now + countTicks (Event.click ex :: tr)
      rw [hb]
      simp [handleCardClick, countTicks]
    | tick =>
      have hgt : s.now + 1 < x := by
        simp [countTicks] at h
        omega
      have h1 : x ∈ (tickStep s).timers := by
        simp only [tickStep, List.mem_filter]
        refine ⟨hx, ?_⟩
        simp
        omega
      have h2 : (tickStep s).now + countTicks tr < x := by
        simp only [tickStep]
        simp [countTicks] at h
        omega
      obtain ⟨ha, hb⟩ := ih (tickStep s) x h1 h2
      refine ⟨ha, ?_⟩
      show (runEvents (tickStep s) tr).now = s.now + countTicks (Event.tick :: tr)
      rw [hb]
      simp [tickStep, countTicks]
      omega

/-- Helper: while every pending timer expires at or after `t0` and the
events at hand span strictly less time than `t0`, `isFlipping` stays
true (clicks re-assert it and no timer can fire). -/
lemma flipping_persists (q : List Event) : ∀ (s : CardState) (t0 : Nat),
    s.isFlipping = true → (∀ x ∈ s.timers, t0 ≤ x) →
    s.now + countTicks q < t0 → t0 ≤ s.now + 800 →
    (runEvents s q).isFlipping = true := by
  induction q with
  | nil =>
    intro s t0 hf _ _ _
    simpa [runEvents] using hf
  | cons e q ih =>
    intro s t0 hf ht hn hb
    cases e with
    | click ex =>
      apply ih (handleCardClick s ex) t0 rfl
      · intro x hx
        simp [handleCardClick] at hx
        rcases hx with hx | hx
        · exact ht x hx
        · omega
      · simp only [handleCardClick]
        simpa [countTicks] using hn
      · simp only [handleCardClick]
        exact hb
    | tick =>
      have hfired : (s.timers.filter fun t => decide (t ≤ s.now + 1)) = [] := by
        rw [List.filter_eq_nil_iff]
        intro a ha
        have := ht a ha
        simp [countTicks] at hn
        simp
        omega
      apply ih (tickStep s) t0
      · simp [tickStep, hfired, hf]
      · intro x hx
        simp only [tickStep, List.mem_filter] at hx
        exact ht x hx.1
      · simp only [tickStep]
        simp [countTicks] at hn ⊢
        omega
      · simp only [tickStep]
        omega

/-- C3: a click toggles `isFlipped` exactly once and sets `isFlipping`;
on the simulated clock, `isFlipping` is true throughout the 800 ms
window after the click (when the click found no stale timers pending)
and is false at exactly 800 ms after the click, regardless of any
further clicks delivered during the window; and a click is never blocked
from toggling `isFlipped` again. -/
theorem flip_timing (s : CardState) (explosionParticles : List Particle) (tr : List Event)
    (h : countTicks tr = 799) :
    (handleCardClick s explosionParticles).isFlipped = !s.isFlipped ∧
    (handleCardClick s explosionParticles).isFlipping = true ∧
    (runEvents (handleCardClick s explosionParticles) (tr ++ [Event.tick])).isFlipping = false ∧
    (s.timers = [] → ∀ q r, tr = q ++ r →
      (runEvents (handleCardClick s explosionParticles) q).isFlipping = true) ∧
    (∀ (s2 : CardState) (e2 : List Particle),
      (handleCardClick s2 e2).isFlipped = !s2.isFlipped) := by
  refine ⟨rfl, rfl, ?_, ?_, fun s2 e2 => rfl⟩
  · have hmem : (s.now + 800) ∈ (handleCardClick s explosionParticles).timers := by
      simp [handleCardClick]
    have hlt : (handleCardClick s explosionParticles).now + countTicks tr < s.now + 800 := by
      simp [handleCardClick, h]
    obtain ⟨ha, hb⟩ := timer_alive tr (handleCardClick s explosionParticles) (s.now + 800) hmem hlt
    rw [runEvents_append]
    show (tickStep (runEvents (handleCardClick s explosionParticles) tr)).isFlipping = false
    have hnow : (runEvents (handleCardClick s explosionParticles) tr).now = s.now + 799 := by
      rw [hb]
      simp [handleCardClick, h]
    have hne :
        ((runEvents (handleCardClick s explosionParticles) tr).timers.filter
          fun t => decide (t ≤ (runEvents (handleCardClick s explosionParticles) tr).now + 1))
          ≠ [] := by
      intro hnil
      have hin : (s.now + 800) ∈
          (runEvents (handleCardClick s explosionParticles) tr).timers.filter
            fun t => decide (t ≤ (runEvents (handleCardClick s explosionParticles) tr).now + 1) := by
        refine List.mem_filter.mpr ⟨ha, ?_⟩
        simp [hnow]
      rw [hnil] at hin
      simp at hin
    simp [tickStep, hne]
  · intro h0 q r hqr
    have hq : countTicks q ≤ 799 := by
      have hsum := countTicks_append q r
      rw [← hqr, h] at hsum
      omega
    apply flipping_persists q (handleCardClick s explosionParticles) (s.now + 800) rfl
    · intro x hx
      simp [handleCardClick, h0] at hx
      omega
    · simp only [handleCardClick]
      omega
    · simp [handleCardClick]

/-- Helper: a run of `n` ticks spans `n` milliseconds. -/
lemma countTicks_replicate (n : Nat) :
    countTicks (List.replicate n Event.tick) = n := by
  induction n with
  | zero => rfl
  | succ n ih => simp [List.replicate_succ, countTicks, ih]

/-- Witness for C3: from the initial state, after a click and exactly
800 simulated milliseconds `isFlipping` is false, while right after the
click (the empty continuation) it is true. -/
theorem flip_timing_witness :
    (runEvents (handleCardClick initialCardState [])
      (List.replicate 799 Event.tick ++ [Event.tick])).isFlipping = false ∧
    (runEvents (handleCardClick initialCardState []) []).isFlipping = true :=
  ⟨(flip_timing initialCardState [] (List.replicate 799 Event.tick)
      (countTicks_replicate 799)).2.2.1,
   (flip_timing initialCardState [] (List.replicate 799 Event.tick)
      (countTicks_replicate 799)).2.2.2.1 rfl [] (List.replicate 799 Event.tick) rfl⟩

/-- Helper: the effect of a run of singleton observer notifications on
the latch and the start count, from an arbitrary state. -/
lemma runNotifications_singletons (obs : List Bool) : ∀ s : ObserveState,
    (runNotifications s (obs.map fun b => [b])).hasAnimated
      = (s.hasAnimated || obs.any fun b => b) ∧
    (runNotifications s (obs.map fun b => [b])).startCount
      = s.startCount + (if s.hasAnimated then 0 else if obs.any (fun b => b) then 1 else 0) := by
  induction obs with
  | nil =>
    intro s
    simp [runNotifications]
  | cons b obs ih =>
    intro s
    cases b with
    | false =>
      have hstep : observerCallback s [false] = s := rfl
      simpa [runNotifications, hstep, List.any_cons] using ih s
    | true =>
      cases hsa : s.hasAnimated with
      | true =>
        have hstep : observerCallback s [true] = s := by
          simp [observerCallback, hsa]
        simpa [runNotifications, hstep, List.any_cons, hsa] using ih s
      | false =>
        have hstep : observerCallback s [true] =
            { hasAnimated := true, startCount := s.startCount + 1 } := by
          simp [observerCallback, hsa]
        obtain ⟨h1, h2⟩ := ih { hasAnimated := true, startCount := s.startCount + 1 }
        simp [runNotifications, hstep, List.any_cons, hsa, h1, h2]

/-- C4: over any sequence of intersection observations delivered to a
mounted AnimatedSection (one entry per notification for its single
observed element), the `hasAnimated` latch equals "some observation
intersected" — so it rises at most once and never falls, as the last
conjunct states pointwise — and the visible-state transition together
with the start callback runs exactly once when any observation
intersects and never otherwise: later intersections do not retrigger
it. -/
theorem viewport_one_shot (obs : List Bool) :
    (runNotifications initialObserveState (obs.map fun b => [b])).hasAnimated
      = obs.any (fun b => b) ∧
    (runNotifications initialObserveState (obs.map fun b => [b])).startCount
      = (if obs.any (fun b => b) then 1 else 0) ∧
    (∀ (s : ObserveState) (b : Bool),
      (observerCallback s [b]).hasAnimated = (s.hasAnimated || b)) := by
  obtain ⟨h1, h2⟩ := runNotifications_singletons obs initialObserveState
  refine ⟨by simpa [initialObserveState] using h1, by simpa [initialObserveState] using h2, ?_⟩
  intro s b
  cases b <;> cases hs : s.hasAnimated <;> simp [observerCallback, hs]

/-- C5: the Register click routes the four known titles to their fixed
URLs, each opened in a new `_blank` context with the
`noopener,noreferrer` features and the opener explicitly nulled, and
routes every other title to the user-facing coming-soon notice with no
navigation. -/
theorem register_routing :
    registerClick ("Brand-o-Vation") =
      RegisterOutcome.navigate ("https://brand-o-vation.vercel.app/") ("_blank")
        ("noopener,noreferrer") true ∧
    registerClick ("Ventura") =
      RegisterOutcome.navigate ("https://ventura-zeta.vercel.app/") ("_blank")
        ("noopener,noreferrer") true ∧
    registerClick ("The Paradox Protocol") =
      RegisterOutcome.navigate ("https://paradox-protocol-theta.vercel.app/") ("_blank")
        ("noopener,noreferrer") true ∧
    registerClick ("Capitalyze") =
      RegisterOutcome.navigate ("https://capitalyze.vercel.app/") ("_blank")
        ("noopener,noreferrer") true ∧
    (∀ title : String, title ≠ "Brand-o-Vation" → title ≠ "Ventura" →
      title ≠ "The Paradox Protocol" → title ≠ "Capitalyze" →
      registerClick title =
        RegisterOutcome.notice ("Registration for " ++ title ++ " coming soon!")) := by
  refine ⟨by decide, by decide, by decide, by decide, ?_⟩
  intro title h1 h2 h3 h4
  simp [registerClick, h1, h2, h3, h4]

/-- Witness for C5: an unmapped title produces the coming-soon notice. -/
theorem register_routing_witness :
    registerClick ("Interstellar") =
      RegisterOutcome.notice ("Registration for Interstellar coming soon!") :=
  register_routing.2.2.2.2 ("Interstellar") (by decide) (by decide) (by decide) (by decide)

/-- C7: while the card is flipped, `handleMouseMove` returns the state
unchanged — `mouseX`, `mouseY` and the particle list in particular — for
every pointer event, random sample and hover flag, and the inner animate
object applies the neutral transforms (no tilt, lift, depth or scale)
whenever `flipped` is true. -/
theorem flipped_suppresses_pointer (s : CardState) (isHovered hasRef : Bool)
    (e : MouseEventData) (rand : ℚ) (burstParticles : List Particle)
    (hf : s.isFlipped = true) :
    handleMouseMove s isHovered hasRef e rand burstParticles = s ∧
    (∀ (hovered focused : Bool) (springX springY : ℚ),
      appliedInner true hovered focused springX springY =
        { rotateX := 0, y := 0, z := 0, scale := 1 }) := by
  constructor
  · simp [handleMouseMove, hf]
  · intro hovered focused sx sy
    simp [appliedInner]

/-- Witness for C7 at a concrete flipped state: the pointer move is a
no-op. -/
theorem flipped_suppresses_pointer_witness :
    handleMouseMove { initialCardState with isFlipped := true } true true
      ⟨0, 0, 0, 0, 0, 0⟩ 0 [] = { initialCardState with isFlipped := true } :=
  (flipped_suppresses_pointer { initialCardState with isFlipped := true } true true
    ⟨0, 0, 0, 0, 0, 0⟩ 0 [] rfl).1

/-- C9: a click on the Register button stops propagation, so the
card-level click handler never runs: the card state is returned
unchanged — `isFlipped`, `isFlipping` and the particle list included —
and only the routing outcome is produced. -/
theorem register_click_isolated (s : CardState) (title : String)
    (explosionParticles : List Particle) :
    (dispatchRegisterClick s title explosionParticles).fst = s ∧
    (dispatchRegisterClick s title explosionParticles).fst.isFlipped = s.isFlipped ∧
    (dispatchRegisterClick s title explosionParticles).fst.isFlipping = s.isFlipping ∧
    (dispatchRegisterClick s title explosionParticles).fst.particles = s.particles ∧
    (dispatchRegisterClick s title explosionParticles).snd = registerClick title :=
  ⟨rfl, rfl, rfl, rfl, rfl⟩

/-- Helper: the clamped progress lies in the unit interval. -/
lemma clamp01_mem (t : ℚ) : 0 ≤ clamp01 t ∧ clamp01 t ≤ 1 := by
  unfold clamp01
  constructor
  · exact le_max_left 0 _
  · exact max_le (by norm_num) (min_le_left 1 t)

/-- Helper: inputs at or below the lower endpoint map to the first
output. -/
lemma useTransform_left (o1 o2 v : ℚ) (h : v ≤ -(1/2)) :
    useTransform (-(1/2)) (1/2) o1 o2 v = o1 := by
  unfold useTransform clamp01
  have h1 : (v - -(1/2)) / (1/2 - -(1/2)) = v + 1/2 := by ring
  rw [h1, min_eq_right (by linarith), max_eq_left (by linarith)]
  ring

/-- Helper: inputs at or above the upper endpoint map to the second
output. -/
lemma useTransform_right (o1 o2 v : ℚ) (h : 1/2 ≤ v) :
    useTransform (-(1/2)) (1/2) o1 o2 v = o2 := by
  unfold useTransform clamp01
  have h1 : (v - -(1/2)) / (1/2 - -(1/2)) = v + 1/2 := by ring
  rw [h1, min_eq_left (by linarith), max_eq_right (by linarith)]
  ring

/-- Helper: inside the input interval the transform is the plain linear
interpolation. -/
lemma useTransform_interior (o1 o2 v : ℚ) (h1 : -(1/2) ≤ v) (h2 : v ≤ 1/2) :
    useTransform (-(1/2)) (1/2) o1 o2 v = o1 + (v + 1/2) * (o2 - o1) := by
  unfold useTransform clamp01
  have he : (v - -(1/2)) / (1/2 - -(1/2)) = v + 1/2 := by ring
  rw [he, min_eq_right (by linarith), max_eq_right (by linarith)]

/-- Helper: the transform's output stays between the two outputs. -/
lemma useTransform_bounds (o1 o2 v : ℚ) :
    min o1 o2 ≤ useTransform (-(1/2)) (1/2) o1 o2 v ∧
    useTransform (-(1/2)) (1/2) o1 o2 v ≤ max o1 o2 := by
  obtain ⟨h0, h1⟩ := clamp01_mem ((v - -(1/2)) / (1/2 - -(1/2)))
  unfold useTransform
  constructor
  · rcases le_total o1 o2 with h | h
    · rw [min_eq_left h]; nlinarith
    · rw [min_eq_right h]; nlinarith
  · rcases le_total o1 o2 with h | h
    · rw [max_eq_right h]; nlinarith
    · rw [max_eq_left h]; nlinarith

/-- C6 (amended): the pointer transforms are linear interpolations over
the input domain `[-0.5, 0.5]` clamped at the endpoints, so rotation
stays within ±25°, lift within `[-60, -30]`, depth within `[20, 80]`
and scale within `[1.02, 1.15]`; while unflipped and hovered or focused
the card applies the interpolated tilt `rotateX` and lift `levitateY`,
but its applied depth and scale are the constants 60 (hover) / 100
(focus) and 1.08 (hover) / 1.12 (focus): the interpolated `levitateZ`
and `depthScale` values are computed yet not applied. -/
theorem tilt_interp_amended (v springX springY : ℚ) :
    (-25 ≤ rotateX v ∧ rotateX v ≤ 25) ∧
    (-25 ≤ rotateY v ∧ rotateY v ≤ 25) ∧
    (-60 ≤ levitateY v ∧ levitateY v ≤ -30) ∧
    (20 ≤ levitateZ v ∧ levitateZ v ≤ 80) ∧
    (102/100 ≤ depthScale v ∧ depthScale v ≤ 115/100) ∧
    (v ≤ -(1/2) → rotateX v = 25 ∧ rotateY v = -25 ∧ levitateY v = -30 ∧
      levitateZ v = 20 ∧ depthScale v = 102/100) ∧
    (1/2 ≤ v → rotateX v = -25 ∧ rotateY v = 25 ∧ levitateY v = -60 ∧
      levitateZ v = 80 ∧ depthScale v = 115/100) ∧
    (-(1/2) ≤ v → v ≤ 1/2 →
      rotateX v = 25 - 50 * (v + 1/2) ∧ levitateZ v = 20 + 60 * (v + 1/2)) ∧
    ((appliedInner false true false springX springY).rotateX = rotateX springY ∧
     (appliedInner false true false springX springY).y = levitateY springY ∧
     (appliedInner false true false springX springY).z = 60 ∧
     (appliedInner false true false springX springY).scale = 108/100 ∧
     (appliedInner false false true springX springY).z = 100 ∧
     (appliedInner false false true springX springY).scale = 112/100) := by
  refine ⟨?_, ?_, ?_, ?_, ?_, ?_, ?_, ?_, ?_⟩
  · obtain ⟨hl, hr⟩ := useTransform_bounds 25 (-25) v
    rw [show min (25:ℚ) (-25) = -25 by norm_num] at hl
    rw [show max (25:ℚ) (-25) = 25 by norm_num] at hr
    exact ⟨hl, hr⟩
  · obtain ⟨hl, hr⟩ := useTransform_bounds (-25) 25 v
    rw [show min (-25:ℚ) 25 = -25 by norm_num] at hl
    rw [show max (-25:ℚ) 25 = 25 by norm_num] at hr
    exact ⟨hl, hr⟩
  · obtain ⟨hl, hr⟩ := useTransform_bounds (-30) (-60) v
    rw [show min (-30:ℚ) (-60) = -60 by norm_num] at hl
    rw [show max (-30:ℚ) (-60) = -30 by norm_num] at hr
    exact ⟨hl, hr⟩
  · obtain ⟨hl, hr⟩ := useTransform_bounds 20 80 v
    rw [show min (20:ℚ) 80 = 20 by norm_num] at hl
    rw [show max (20:ℚ) 80 = 80 by norm_num] at hr
    exact ⟨hl, hr⟩
  · obtain ⟨hl, hr⟩ := useTransform_bounds (102/100) (115/100) v
    rw [show min (102/100:ℚ) (115/100) = 102/100 by norm_num] at hl
    rw [show max (102/100:ℚ) (115/100) = 115/100 by norm_num] at hr
    exact ⟨hl, hr⟩
  · intro h
    exact ⟨useTransform_left 25 (-25) v h, useTransform_left (-25) 25 v h,
      useTransform_left (-30) (-60) v h, useTransform_left 20 80 v h,
      useTransform_left (102/100) (115/100) v h⟩
  · intro h
    exact ⟨useTransform_right 25 (-25) v h, useTransform_right (-25) 25 v h,
      useTransform_right (-30) (-60) v h, useTransform_right 20 80 v h,
      useTransform_right (102/100) (115/100) v h⟩
  · intro h1 h2
    constructor
    · unfold rotateX
      rw [useTransform_interior 25 (-25) v h1 h2]
      ring
    · unfold levitateZ
      rw [useTransform_interior 20 80 v h1 h2]
      ring
  · simp [appliedInner]

/-- Witness for C6 at the out-of-range input 2: every transform clamps
at its upper-endpoint output. -/
theorem tilt_interp_witness :
    rotateX 2 = -25 ∧ rotateY 2 = 25 ∧ levitateY 2 = -60 ∧
    levitateZ 2 = 80 ∧ depthScale 2 = 115/100 :=
  (tilt_interp_amended 2 0 0).2.2.2.2.2.2.1 (by norm_num)

/-- C6 (counterexample): with the pointer at the domain edge while the
card is unflipped and hovered, the applied depth is the constant 60
while the interpolated `levitateZ` is 80, and the applied scale is the
constant 1.08 while the interpolated `depthScale` is 1.15 — the card
does not apply the interpolated depth and scale values. -/
theorem tilt_interp_cex :
    (appliedInner false true false (1/2) (1/2)).z = 60 ∧
    levitateZ (1/2) = 80 ∧
    ¬ ((appliedInner false true false (1/2) (1/2)).z = levitateZ (1/2)) ∧
    (appliedInner false true false (1/2) (1/2)).scale = 108/100 ∧
    depthScale (1/2) = 115/100 ∧
    ¬ ((appliedInner false true false (1/2) (1/2)).scale = depthScale (1/2)) := by
  have hz : levitateZ (1/2) = 80 := useTransform_right 20 80 (1/2) (by norm_num)
  have hs : depthScale (1/2) = 115/100 := useTransform_right (102/100) (115/100) (1/2) (by norm_num)
  have h60 : (appliedInner false true false (1/2) (1/2)).z = 60 := by simp [appliedInner]
  have h108 : (appliedInner false true false (1/2) (1/2)).scale = 108/100 := by
    simp [appliedInner]
  refine ⟨h60, hz, ?_, h108, hs, ?_⟩
  · rw [h60, hz]
    norm_num
  · rw [h108, hs]
    norm_num

/-- C8 (counterexample): with reduced motion active at mount, the first
rendered frame is still the hidden variant — the wrapper mounts with
`initial="hidden"` before the mount effect starts the visible state — so
an intermediate hidden frame is rendered before visibility. -/
theorem reduced_motion_cex :
    (sectionMountFrames true true).head? = some sectionFirstFrame ∧
    sectionFirstFrame.variant = SectionVariantTag.hidden ∧
    SectionVariantTag.hidden ≠ SectionVariantTag.visible := by
  refine ⟨rfl, rfl, by decide⟩

/-- C8 (amended): when reduced motion is active at mount, no
intersection observer is attached and the mount effect immediately puts
the section in the visible state without waiting for any intersection;
however the initial render still shows the hidden variant for one
frame, so the mount renders exactly a hidden frame followed by the
visible state with the observer never attached. -/
theorem reduced_motion_amended (hasRef : Bool) (f : SectionFrame) :
    (sectionMountEffect true hasRef f).observerAttached = f.observerAttached ∧
    (sectionMountEffect true hasRef f).variant = SectionVariantTag.visible ∧
    sectionFirstFrame.variant = SectionVariantTag.hidden ∧
    sectionMountFrames true hasRef =
      [⟨SectionVariantTag.hidden, false⟩, ⟨SectionVariantTag.visible, false⟩] := by
  refine ⟨?_, ?_, rfl, ?_⟩ <;>
    cases hasRef <;>
      simp [sectionMountEffect, sectionMountFrames, sectionFirstFrame]

/-- C10: the shipped `getAnimationVariants` depends only on the
animation type, the base duration and the reduced-motion flag — two runs
differing only in intensity, `enable3D`, `enableParticles` or any
device-capability signal return identical variant pairs — and the
shipped render never contains the particle trail; the alternative
capability-branching version, by contrast, returns different variants
for inputs differing only in device-capability signals. -/
theorem shipped_variants_capability_independent :
    (∀ (p1 p2 : SectionProps) (d1 d2 : DeviceSignals),
      p1.animationType = p2.animationType → p1.duration = p2.duration →
      d1.prefersReducedMotion = d2.prefersReducedMotion →
      shippedGetAnimationVariants p1 d1 = shippedGetAnimationVariants p2 d2) ∧
    (∀ (p : SectionProps) (d : DeviceSignals),
      RenderElem.particleTrail ∉ shippedRenderElems p d) ∧
    (∃ (p : SectionProps) (d1 d2 : DeviceSignals),
      d1.prefersReducedMotion = d2.prefersReducedMotion ∧
      altGetAnimationVariants p d1 ≠ altGetAnimationVariants p d2) := by
  refine ⟨?_, ?_, ?_⟩
  · intro p1 p2 d1 d2 h1 h2 h3
    unfold shippedGetAnimationVariants
    rw [h3, h1, h2]
  · intro p d
    simp [shippedRenderElems]
  · refine ⟨⟨AnimationType.rotate, 1, Intensity.medium, false, true⟩,
      ⟨true, false, some 8, none, false⟩, ⟨true, false, some 2, none, true⟩, rfl, ?_⟩
    intro heq
    have hz := congrArg (fun vp : VariantPair => vp.hidden.z) heq
    simp [altGetAnimationVariants, getDevicePerformance, altOptimizedSettings,
      intensityMultiplier] at hz

/-- Witness for C10: two runs differing in intensity, the particle and
3D switches, and every capability signal, but agreeing on type, duration
and reduced motion, produce the same shipped variants. -/
theorem shipped_variants_witness :
    shippedGetAnimationVariants ⟨AnimationType.slide, 1, Intensity.light, true, true⟩
      ⟨true, false, some 8, some 8, false⟩ =
    shippedGetAnimationVariants ⟨AnimationType.slide, 1, Intensity.heavy, false, false⟩
      ⟨false, false, some 2, none, true⟩ :=
  shipped_variants_capability_independent.1 _ _ _ _ rfl rfl rfl
